import Mathlib

/-!
Verification development for the MECH_EINF laboratory-script repository.

The Python sources are shallowly embedded: pure arithmetic becomes functions
over `ℚ`/`ℤ`/`Nat`, hardware side effects (GPIO writes, PWM commands, pin
frees, chip close, passive sleeps) become explicit event traces, the CSV file
becomes a list of rows, and fallible ADC reads become `Option`-valued
functions driven by an explicit outcome of the underlying library call.
-/

namespace MechEinf

/-! ## Stepper coil sequences (`Labor_4`)

`stepper_motor_timer_test.py` keeps the coil patterns in the dictionary
`step_sequences = {0: [(0,1,0,1), (0,1,1,0), (1,0,1,0), (1,0,0,1)],
1: [(1,0,0,1), (1,0,1,0), (0,1,1,0), (0,1,0,1)]}`, and `execute_step` /
`run_motor_with_timer` emit `sequence[current_step % len(sequence)]`.
`L4_Stepmotor.py` writes the same four patterns inline in its main loop,
one branch per direction. -/

/-- One four-bit coil pattern `(coil_1, coil_2, coil_3, coil_4)`. -/
abbrev CoilPattern := Nat × Nat × Nat × Nat

/-- The `step_sequences` dictionary of `ThreadingStepperController.__init__`
and of `run_motor_with_timer` (both tables are written out identically). -/
def stepSequences : Nat → List CoilPattern
  | 0 => [(0, 1, 0, 1), (0, 1, 1, 0), (1, 0, 1, 0), (1, 0, 0, 1)]
  | _ => [(1, 0, 0, 1), (1, 0, 1, 0), (0, 1, 1, 0), (0, 1, 0, 1)]

/-- The pattern handed to `set_motor_coils` at step counter `n`:
`sequence[current_step % len(sequence)]` in `execute_step` and in the
stepping loop of `run_motor_with_timer`. -/
def stepPattern (direction : Nat) (n : Nat) : CoilPattern :=
  (stepSequences direction).getD (n % (stepSequences direction).length) (0, 0, 0, 0)

/-- The sequence of coil patterns written by one pass of the endless loop of
`L4_Stepmotor.py` (`if DIRECTION == 0: ... else: ...`), transcribed from the
eight inline `set_motor_coils` calls. -/
def l4LoopPatterns (direction : Nat) : List CoilPattern :=
  if direction = 0 then
    [(0, 1, 0, 1), (0, 1, 1, 0), (1, 0, 1, 0), (1, 0, 0, 1)]
  else
    [(1, 0, 0, 1), (1, 0, 1, 0), (0, 1, 1, 0), (0, 1, 0, 1)]

/-! ## Interrupt shutdown traces (`Labor_4` / `Labor_5`)

The `KeyboardInterrupt` handler of `L4_Stepmotor.py` runs `stop_motor()`
(enable `D1`/`D2`, write all four coil pins to 0, busy-sleep one step time,
disable `D1`/`D2`), then frees `M1..M4` and closes the GPIO chip.  The handler
of `L5_regelkreis_drehzahl.py` runs its `stop_motor()` (write `M3`/`M4` to 0,
set the PWM duty cycle on `PWMB` to 0), then frees `M3`/`M4`/`PWMB` and closes
the chip. -/

/-- One hardware-affecting action of a shutdown handler. -/
inductive HwEvent where
  | write (pin : Nat) (val : Nat)
  | pwm (pin : Nat) (freq : Nat) (duty : ℚ)
  | sleep (secs : ℚ)
  | free (pin : Nat)
  | closeChip
  deriving DecidableEq, Repr

/-- GPIO pin numbers of `L4_Stepmotor.py` (also `stepper_motor_timer_test.py`). -/
def pinM1 : Nat := 20
def pinM2 : Nat := 21
def pinM3 : Nat := 6
def pinM4 : Nat := 13
def pinD1 : Nat := 26
def pinD2 : Nat := 12
/-- PWM enable pin of `L5_regelkreis_drehzahl.py` (`PWMB = 12`). -/
def pinPWMB : Nat := 12
/-- `STEP_TIME` of `L4_Stepmotor.py`. -/
def l4StepTime : ℚ := 8 / 10000
/-- `PWM_FREQUENCY` of `L5_regelkreis_drehzahl.py`. -/
def drehzahlPwmFrequency : Nat := 1000

/-- The event trace of the `except KeyboardInterrupt` handler of
`L4_Stepmotor.py`: `stop_motor()` (whose body enables `D1`/`D2`, calls
`set_motor_coils(0, 0, 0, 0)`, busy-sleeps `STEP_TIME`, disables `D1`/`D2`),
then the four `lgpio.gpio_free` calls and `lgpio.gpiochip_close`. -/
def l4StepmotorInterruptTrace : List HwEvent :=
  [HwEvent.write pinD1 1, HwEvent.write pinD2 1,
   HwEvent.write pinM1 0, HwEvent.write pinM2 0,
   HwEvent.write pinM3 0, HwEvent.write pinM4 0,
   HwEvent.sleep l4StepTime,
   HwEvent.write pinD1 0, HwEvent.write pinD2 0,
   HwEvent.free pinM1, HwEvent.free pinM2,
   HwEvent.free pinM3, HwEvent.free pinM4,
   HwEvent.closeChip]

/-- The event trace of the `except KeyboardInterrupt` handler of
`L5_regelkreis_drehzahl.py`: `stop_motor()` (write `M3`/`M4` low, set the PWM
duty cycle on `PWMB` to 0), then the three `lgpio.gpio_free` calls and
`lgpio.gpiochip_close`. -/
def drehzahlInterruptTrace : List HwEvent :=
  [HwEvent.write pinM3 0, HwEvent.write pinM4 0,
   HwEvent.pwm pinPWMB drehzahlPwmFrequency 0,
   HwEvent.free pinM3, HwEvent.free pinM4, HwEvent.free pinPWMB,
   HwEvent.closeChip]

/-- `PWM_FREQUENCY` of `L4_DCmotor.py`. -/
def dcmotorPwmFrequency : Nat := 8000
/-- `PWM_FREQUENCY` of `L4_DCmotor_Measurements.py`. -/
def dcmotorMeasPwmFrequency : Nat := 1000
/-- `STEP_TIME` of `L4_Stepmotor_Measurements.py`. -/
def l4MeasStepTime : ℚ := 3 / 1000
/-- `STEP_TIME` of `test.py` (`Labor_4`). -/
def l4TestStepTime : ℚ := 2 / 1000

/-- The event trace of the `except KeyboardInterrupt` handler of
`L4_DCmotor.py`: `stop_motor()` (write `M3`/`M4` low, PWM duty 0 on `PWMB`),
then the three `lgpio.gpio_free` calls and `lgpio.gpiochip_close`. -/
def l4DCmotorInterruptTrace : List HwEvent :=
  [HwEvent.write pinM3 0, HwEvent.write pinM4 0,
   HwEvent.pwm pinPWMB dcmotorPwmFrequency 0,
   HwEvent.free pinM3, HwEvent.free pinM4, HwEvent.free pinPWMB,
   HwEvent.closeChip]

/-- The event trace of the `except KeyboardInterrupt` handler of
`L4_DCmotor_Measurements.py` (same shape as `L4_DCmotor.py`, PWM frequency
1000 Hz). -/
def l4DCmotorMeasInterruptTrace : List HwEvent :=
  [HwEvent.write pinM3 0, HwEvent.write pinM4 0,
   HwEvent.pwm pinPWMB dcmotorMeasPwmFrequency 0,
   HwEvent.free pinM3, HwEvent.free pinM4, HwEvent.free pinPWMB,
   HwEvent.closeChip]

/-- The event trace of the `except KeyboardInterrupt` handler of `test.py`
(`Labor_4`): `stop_motor()`, the four `lgpio.gpio_free` calls,
`lgpio.gpiochip_close`. -/
def l4TestInterruptTrace : List HwEvent :=
  [HwEvent.write pinD1 1, HwEvent.write pinD2 1,
   HwEvent.write pinM1 0, HwEvent.write pinM2 0,
   HwEvent.write pinM3 0, HwEvent.write pinM4 0,
   HwEvent.sleep l4TestStepTime,
   HwEvent.write pinD1 0, HwEvent.write pinD2 0,
   HwEvent.free pinM1, HwEvent.free pinM2,
   HwEvent.free pinM3, HwEvent.free pinM4,
   HwEvent.closeChip]

/-- The event trace of the `except KeyboardInterrupt` handler of
`L5_Regelkreis_zeit.py`: its `stop_motor()` (enable `D1`, write `M1`/`M2`
low, disable `D1`), then `pi1.stop()`, which terminates the pigpio
connection and releases its resources (modelled as the handle close). -/
def zeitInterruptTrace : List HwEvent :=
  [HwEvent.write pinD1 1, HwEvent.write pinM1 0, HwEvent.write pinM2 0,
   HwEvent.write pinD1 0, HwEvent.closeChip]

/-- The event trace of the `except KeyboardInterrupt` handler of
`L4_Stepmotor_Measurements.py`: `stop_motor()` then the four
`lgpio.gpio_free` calls — the file contains no `lgpio.gpiochip_close`, so
the chip handle is never closed. -/
def l4StepmotorMeasInterruptTrace : List HwEvent :=
  [HwEvent.write pinD1 1, HwEvent.write pinD2 1,
   HwEvent.write pinM1 0, HwEvent.write pinM2 0,
   HwEvent.write pinM3 0, HwEvent.write pinM4 0,
   HwEvent.sleep l4MeasStepTime,
   HwEvent.write pinD1 0, HwEvent.write pinD2 0,
   HwEvent.free pinM1, HwEvent.free pinM2,
   HwEvent.free pinM3, HwEvent.free pinM4]

/-- The hardware events performed after a `KeyboardInterrupt` raised inside
the step loop of `test_different_frequencies` in `temp_pwm_test.py`: the
surrounding `try` catches only `Exception` (which does not include
`KeyboardInterrupt`), so the interrupt unwinds through the `finally` block of
the `stepper_pwm_safe_mode` context manager, which frees `M1..M4`, `D1`, `D2`
and closes the chip without writing any pin — the coils keep the last step
pattern. -/
def tempPwmTestInterruptTrace : List HwEvent :=
  [HwEvent.free pinM1, HwEvent.free pinM2,
   HwEvent.free pinM3, HwEvent.free pinM4,
   HwEvent.free pinD1, HwEvent.free pinD2,
   HwEvent.closeChip]

/-- The hardware events performed by the `except KeyboardInterrupt` handler
inside `run_motor_with_timer` of `stepper_motor_timer_test.py`: it only
prints step statistics and returns to the menu — no GPIO write, no free, no
close (the shutdown runs only in the exit-path `finally` of `__main__`). -/
def timerTestRunInterruptTrace : List HwEvent := []

/-- Whether an event is an actuator write (a GPIO write or a PWM command). -/
def HwEvent.isActuatorWrite : HwEvent → Bool
  | .write _ _ => true
  | .pwm _ _ _ => true
  | _ => false

/-- Whether an event releases hardware (frees a pin or closes the chip). -/
def HwEvent.isRelease : HwEvent → Bool
  | .free _ => true
  | .closeChip => true
  | _ => false

/-- `tr` zeroes pin `p`: some write of value 0 to `p` occurs and the last
write to `p` in `tr` writes 0. -/
def zeroesPin (tr : List HwEvent) (p : Nat) : Bool :=
  ((tr.filter fun e =>
      match e with | .write q _ => q == p | _ => false).getLast?) ==
    some (HwEvent.write p 0)

/-- Every actuator write of `tr` precedes every release event of `tr`
(positionally: once a `free` or `closeChip` happens, no further write
or PWM command appears). -/
def writesBeforeReleases (tr : List HwEvent) : Bool :=
  match tr with
  | [] => true
  | e :: rest =>
    if e.isRelease then rest.all fun x => !x.isActuatorWrite
    else writesBeforeReleases rest

/-- No actuator write occurs after `closeChip` in `tr`. -/
def noWriteAfterClose (tr : List HwEvent) : Bool :=
  match tr with
  | [] => true
  | HwEvent.closeChip :: rest => rest.all fun x => !x.isActuatorWrite
  | _ :: rest => noWriteAfterClose rest

/-! ## Busy-sleep variants (`Labor_4`)

Each sleep function is embedded as the list of `time.sleep` durations it
performs (the passive part) together with whether it enters its spin-wait
loop.  Durations are rationals standing for the Python float arithmetic. -/

/-- Observable behaviour of one sleep-function call: the arguments of the
`time.sleep` calls it makes, in order, and whether it runs a spin-wait loop
afterwards. -/
structure SleepBehavior where
  passiveSleeps : List ℚ
  spinWait : Bool
  deriving DecidableEq, Repr

/-- `busy_sleep` of `L4_Stepmotor.py`: `if secs > 0.0004: time.sleep(secs -
0.0002)`, then `while time.time() - start_timestamp < secs: pass`. -/
def busySleep (secs : ℚ) : SleepBehavior :=
  ⟨if 4 / 10000 < secs then [secs - 2 / 10000] else [], true⟩

/-- `perf_counter_busy_sleep` of `stepper_motor_timer_test.py`: early return
for `secs <= 0`; `if secs > 0.001: time.sleep(secs - 0.0005)`; then the
`perf_counter` spin loop. -/
def perfCounterBusySleep (secs : ℚ) : SleepBehavior :=
  if secs ≤ 0 then ⟨[], false⟩
  else if 1 / 1000 < secs then ⟨[secs - 5 / 10000], true⟩
  else ⟨[], true⟩

/-- `stepper_optimized_sleep` of `stepper_motor_timer_test.py`: early return
for `secs <= 0`; `secs < 0.0005` spins only; `secs < 0.002` sleeps
`secs - 0.0003`; `secs < 0.01` sleeps `secs - 0.0005`; otherwise sleeps
`secs - 0.001`; every branch then spins on `perf_counter`. -/
def stepperOptimizedSleep (secs : ℚ) : SleepBehavior :=
  if secs ≤ 0 then ⟨[], false⟩
  else if secs < 5 / 10000 then ⟨[], true⟩
  else if secs < 2 / 1000 then ⟨[secs - 3 / 10000], true⟩
  else if secs < 1 / 100 then ⟨[secs - 5 / 10000], true⟩
  else ⟨[secs - 1 / 1000], true⟩

/-- The hybrid-sleep scheme claimed for a variant with (strict) threshold `t`:
above `t` exactly one passive sleep, strictly positive and strictly shorter
than `secs`, followed by the spin-wait; at or below `t` (but positive) no
passive sleep and only the spin-wait. -/
def hybridWithThreshold (variant : ℚ → SleepBehavior) (t : ℚ) : Prop :=
  ∀ secs : ℚ, 0 < secs →
    (t < secs → ∃ d, (variant secs).passiveSleeps = [d] ∧ 0 < d ∧ d < secs ∧
      (variant secs).spinWait = true) ∧
    (secs ≤ t → (variant secs).passiveSleeps = [] ∧ (variant secs).spinWait = true)

/-! ## Proportional control outputs (`Labor_5`)

`L5_regelkreis_drehzahl.py` computes `speed = delta_distance * k`,
`pwm_dutycycle = int(round(abs(speed) + OFFSET_DUTYCYCLE, 0))`, then clamps
with two successive `if`s before handing the value to `lgpio.tx_pwm`.
`L5_Regelkreis_zeit.py` computes `drivetime = abs(delta_distance * k)`. -/

/-- Python `round` to zero decimal places on a rational: rounds half to even
(banker's rounding). -/
def pyRound (q : ℚ) : ℤ :=
  let f := ⌊q⌋
  let r := q - f
  if r < 1 / 2 then f
  else if 1 / 2 < r then f + 1
  else if 2 ∣ f then f else f + 1

/-- `k = 2` of `L5_regelkreis_drehzahl.py`. -/
def drehzahlK : ℚ := 2
/-- `OFFSET_DUTYCYCLE = 10` of `L5_regelkreis_drehzahl.py`. -/
def offsetDutycycle : ℚ := 10
/-- `k = 0.001` of `L5_Regelkreis_zeit.py`. -/
def zeitK : ℚ := 1 / 1000

/-- `pwm_dutycycle = int(round(abs(speed) + OFFSET_DUTYCYCLE, 0))` with
`speed = delta_distance * k`. -/
def pwmDutycycleRaw (deltaDistance : ℚ) : ℤ :=
  pyRound (|deltaDistance * drehzahlK| + offsetDutycycle)

/-- The two successive clamping `if`s of `L5_regelkreis_drehzahl.py`:
`if pwm_dutycycle < 0: pwm_dutycycle = 0` then
`if pwm_dutycycle > 100: pwm_dutycycle = 100`. -/
def clampDutycycle (d : ℤ) : ℤ :=
  let d1 := if d < 0 then 0 else d
  if d1 > 100 then 100 else d1

/-- The duty cycle handed to `lgpio.tx_pwm(gpio0, PWMB, PWM_FREQUENCY, ...)`. -/
def emittedDutycycle (deltaDistance : ℚ) : ℤ :=
  clampDutycycle (pwmDutycycleRaw deltaDistance)

/-- `drivetime = abs(delta_distance * k)` of `L5_Regelkreis_zeit.py`. -/
def drivetime (deltaDistance : ℚ) : ℚ := |deltaDistance * zeitK|

/-! ## Potentiometer calibration and angle read (`Labor_1`)

`L1_Hysteresis.py` reads `adc.read(pin)` and maps it through
`voltage = float(sensor_value) * ADC_REF / ADC_RES`; `calibrate_potentiometer`
derives `sensitivity = abs(max_cal_voltage - min_cal_voltage) /
abs(max_cal_angle - min_cal_angle)`; `read_angle_potentiometer` computes
`round((offset - voltage) / sensitivity, 2)` with no guard on
`sensitivity`. -/

/-- `ADC_REF = 3.3` of `L1_Hysteresis.py`. -/
def l1AdcRef : ℚ := 33 / 10
/-- `ADC_RES = 4095` of `L1_Hysteresis.py`. -/
def l1AdcRes : ℚ := 4095

/-- `read_voltage_potentiometer` on a raw ADC value. -/
def readVoltagePotentiometer (sensorValue : ℕ) : ℚ :=
  (sensorValue : ℚ) * l1AdcRef / l1AdcRes

/-- Python `round(x, 2)`. -/
def pyRound2 (q : ℚ) : ℚ := (pyRound (q * 100) : ℚ) / 100

/-- `read_angle_potentiometer` applied to an already-read voltage:
`angle = round((offset - voltage) / sensitivity, 2)`.  The division carries no
guard, so `sensitivity = 0` raises `ZeroDivisionError`, modelled as `none`. -/
def readAnglePotentiometer (voltage offset sensitivity : ℚ) : Option ℚ :=
  if sensitivity = 0 then none
  else some (pyRound2 ((offset - voltage) / sensitivity))

/-- `calibrate_potentiometer` applied to the three voltages it reads: returns
`(sensitivity, offset)` where `sensitivity = abs(max_cal_voltage -
min_cal_voltage) / abs(max_cal_angle - min_cal_angle)` and the offset is the
zero-position voltage. -/
def calibratePotentiometer (minCalVoltage maxCalVoltage zeroVoltage : ℚ)
    (minCalAngle maxCalAngle : ℤ) : ℚ × ℚ :=
  (|maxCalVoltage - minCalVoltage| / |((maxCalAngle - minCalAngle : ℤ) : ℚ)|,
   zeroVoltage)

/-! ## ADC reads and the voltage-averaging loop (`Labor_5`)

`read_voltage_ir_sensor` wraps `grovepi.analogRead` (respectively
`adc.read`); on `IOError` it prints and returns `False`, otherwise it returns
`float(sensor_value) * ADC_REF / ADC_RES`.  The `__main__` averaging loop is
`while measurement < N_MEASUREMENTS: voltage = read_voltage_ir_sensor(...);
if voltage: sum_voltage += voltage; measurement += 1`, followed by
`average_voltage = sum_voltage / N_MEASUREMENTS`. -/

/-- Outcome of one underlying analog-read library call. -/
inductive AdcRead where
  | ok (v : ℕ)
  | ioErr
  deriving DecidableEq, Repr

/-- `ADC_REF = 5` of `L5_Regelkreis_zeit.py` / `L5_IR_kalibrieren.py`. -/
def zeitAdcRef : ℚ := 5
/-- `ADC_RES = 1023` of `L5_Regelkreis_zeit.py` / `L5_IR_kalibrieren.py`. -/
def zeitAdcRes : ℚ := 1023

/-- `read_voltage_ir_sensor`: `False` (modelled `none`) on `IOError`, else
`float(sensor_value) * ADC_REF / ADC_RES`. -/
def readVoltageIrSensor : AdcRead → Option ℚ
  | .ioErr => none
  | .ok v => some ((v : ℚ) * zeitAdcRef / zeitAdcRes)

/-- Python truthiness of the value returned by `read_voltage_ir_sensor`:
`False` is falsy, a float is truthy iff it is nonzero. -/
def pyTruthy : Option ℚ → Bool
  | none => false
  | some v => v != 0

/-- The averaging loop run against a finite list of analog-read outcomes,
starting from state `(measurement, sum_voltage)`: each iteration reads once
and, when the result is truthy, accumulates it and increments the counter;
the loop stops once `measurement` reaches `n` (`N_MEASUREMENTS`). -/
def averagingLoop (n : ℕ) : List AdcRead → ℕ × ℚ → ℕ × ℚ
  | [], s => s
  | r :: rs, (m, sum) =>
    if m < n then
      let v := readVoltageIrSensor r
      if pyTruthy v then averagingLoop n rs (m + 1, sum + v.getD 0)
      else averagingLoop n rs (m, sum)
    else (m, sum)

/-- The voltages a run of the loop accepts: results of non-failing reads whose
value is truthy (nonzero). -/
def acceptedVals (rs : List AdcRead) : List ℚ :=
  (rs.map readVoltageIrSensor).filterMap fun o => if pyTruthy o then o else none

/-- `average_voltage = sum_voltage / N_MEASUREMENTS` computed from the final
loop state. -/
def averageVoltage (n : ℕ) (rs : List AdcRead) : ℚ :=
  (averagingLoop n rs (0, 0)).2 / (n : ℚ)

/-! ## CSV logging (`Labor_5`)

A CSV file is modelled as the list of its rows, each row the list of its
cells.  `add_row_to_csv` opens the file in append mode (`'a'`), splits
`row_data` on the delimiter and writes the resulting cell list as one row.
`L5_Regelkreis_zeit.py`'s `__main__` writes a parameter row and a header row
(with `CSV_DELIMITER = ";"` the `elif` branch is taken), then enters the
control loop, whose body appends one data row per iteration;
`L5_IR_kalibrieren.py` writes one header row before its measurement loops. -/

/-- `add_row_to_csv`: append the single row `row_data.split(delimiter)`. -/
def addRowToCsv (file : List (List String)) (rowData : String)
    (delimiter : String) : List (List String) :=
  file ++ [rowData.splitOn delimiter]

/-- The parameter row of `L5_Regelkreis_zeit.py` for `CSV_DELIMITER = ";"`
(the `elif CSV_DELIMITER == ";"` branch, comma-separated text). -/
def zeitParamRow (setDistance : ℤ) : String :=
  "k=0.001 (s/mm), voltage=6 (V), nmeasurements=10, set_distance=" ++
    toString setDistance ++ " (mm)"

/-- The table-header row of `L5_Regelkreis_zeit.py`. -/
def zeitHeaderRow : String := "time (s);ist_distanz (mm);delta_distance (mm)"

/-- The data row appended by one iteration of the control loop of
`L5_Regelkreis_zeit.py`, from its already-formatted numeric fields. -/
def zeitDataRow (timeElapsed distance deltaDistance : String) : String :=
  timeElapsed ++ ";" ++ distance ++ ";" ++ deltaDistance

/-- The CSV contents produced by `L5_Regelkreis_zeit.py` after the prelude
(parameter row, header row) and the given control-loop iterations. -/
def zeitCsvAfter (setDistance : ℤ) (iters : List (String × String × String)) :
    List (List String) :=
  iters.foldl
    (fun file it => addRowToCsv file (zeitDataRow it.1 it.2.1 it.2.2) ";")
    (addRowToCsv (addRowToCsv [] (zeitParamRow setDistance) ";") zeitHeaderRow ";")

/-- The header row of `L5_IR_kalibrieren.py`. -/
def kalibrierenHeaderRow : String := "Spannung (V); Abstand (mm);"

/-- The data row appended per measurement distance by `L5_IR_kalibrieren.py`. -/
def kalibrierenDataRow (avgVoltage dist : String) : String :=
  avgVoltage ++ ";" ++ dist

/-- The CSV contents produced by `L5_IR_kalibrieren.py` after its header row
and the given measurement iterations. -/
def kalibrierenCsvAfter (iters : List (String × String)) : List (List String) :=
  iters.foldl
    (fun file it => addRowToCsv file (kalibrierenDataRow it.1 it.2) ";")
    (addRowToCsv [] kalibrierenHeaderRow ";")

/-! ## CSV file creation (`Labor_5`)

`create_csv_file` of `L5_IR_kalibrieren.py` tries `open(filename, 'x')` and
returns `False` on `FileExistsError`; its `__main__` calls `exit(1)` when it
returns `False`, before the measurement loops.  `create_csv_file` of
`L5_Regelkreis_zeit.py` / `L5_regelkreis_drehzahl.py` instead, when the file
exists, strips a trailing `".csv"`, scans the directory listing for names
matching `base_(\d+).csv` (anchored at the end) that also start with `base`,
and creates `base_(max+1).csv`; it returns `None` only when the final
`open(..., 'x')` itself fails.  The directory is modelled as the list of
existing file names.  Python string primitives are embedded over the
character lists of the names. -/

/-- Python `str.endswith`. -/
def pyEndsWith (s suffix : String) : Bool := suffix.data.isSuffixOf s.data

/-- Python `str.startswith`. -/
def pyStartsWith (s pre : String) : Bool := pre.data.isPrefixOf s.data

/-- Python `s[:-n]` (for `0 < n ≤ len(s)`): drop the last `n` characters. -/
def pyDropRight (s : String) (n : ℕ) : String :=
  ⟨s.data.take (s.data.length - n)⟩

/-- The maximal run of decimal digits at the end of `s`. -/
def digitsSuffixOf (s : String) : List Char :=
  (s.data.reverse.takeWhile Char.isDigit).reverse

/-- Python `int` on a string of decimal digits. -/
def digitsToNat (l : List Char) : ℕ :=
  l.foldl (fun acc c => acc * 10 + (c.toNat - 48)) 0

/-- The regex search `re.compile(rf'{re.escape(base)}_(\d+)\.csv$').search(f)`
of the Regelkreis `create_csv_file`: `f` matches iff it ends in `".csv"` and,
after stripping that suffix, ends in a nonempty digit run immediately
preceded by `base ++ "_"`; the captured group is that digit run. -/
def matchSuffix (base f : String) : Option ℕ :=
  if pyEndsWith f ".csv" then
    let g := pyDropRight f 4
    let ds := digitsSuffixOf g
    if ds.isEmpty then none
    else if pyEndsWith (pyDropRight g ds.length) (base ++ "_") then
      some (digitsToNat ds)
    else none
  else none

/-- The fresh suffixed name `f"{filename}_{next_suffix}.csv"` the Regelkreis
`create_csv_file` builds when `filename` already exists: base = filename
without a trailing `".csv"`, `next_suffix` = maximum of the matched suffixes
(default 0) plus one. -/
def zeitNextName (existing : List String) (filename : String) : String :=
  let base := if pyEndsWith filename ".csv" then pyDropRight filename 4 else filename
  let suffixes := existing.filterMap fun f =>
    if pyStartsWith f base then matchSuffix base f else none
  base ++ "_" ++ toString (suffixes.foldl max 0 + 1) ++ ".csv"

/-- `create_csv_file` of `L5_Regelkreis_zeit.py` (identical in
`L5_regelkreis_drehzahl.py`) against the directory listing `existing`:
returns the name of the newly created file, or `none` when creating fails. -/
def createCsvFileZeit (existing : List String) (filename : String) :
    Option String :=
  if existing.contains filename then
    if existing.contains (zeitNextName existing filename) then none
    else some (zeitNextName existing filename)
  else some filename

/-- `CSV_FILENAME` of `L5_Regelkreis_zeit.py`. -/
def zeitCsvFilename : String := "Wegdiagramm_Zeit.csv"

/-- `L5_Regelkreis_zeit.py` exits before its control loop iff
`create_csv_file` returned `None` (`if filename: ... else: ... exit(0)`). -/
def zeitExitsBeforeLoop (existing : List String) : Bool :=
  (createCsvFileZeit existing zeitCsvFilename).isNone

/-- `create_csv_file` of `L5_IR_kalibrieren.py`: `open(filename, 'x')`
succeeds iff no file of that name exists. -/
def createCsvFileKalibrieren (existing : List String) (filename : String) : Bool :=
  !(existing.contains filename)

/-- `CSV_FILENAME` of `L5_IR_kalibrieren.py`. -/
def kalibrierenCsvFilename : String := "Sensorkalibrierung.csv"

/-- `L5_IR_kalibrieren.py` reaches its measurement loops iff
`create_csv_file` succeeded (`if not create_csv_file(...): exit(1)`). -/
def kalibrierenReachesLoop (existing : List String) : Bool :=
  createCsvFileKalibrieren existing kalibrierenCsvFilename

/-! ## The three `GroveLedBar` copies (`welcome.py`, `L2_Park_Sensor.py`,
`L2_SetLED.py`)

Each file carries its own `GroveLedBar` class.  The driver state (data pin,
`_reverse` flag, `_clk_data` toggle) is shared; each file's methods are
transcribed separately below, producing the sequence of data/clock pin writes
(and delays) as `HwEvent`s.  `_dio` writes to `pin`, `_clk` to `pin + 1`;
`_send_clock` toggles `_clk_data` via `abs(clk_data - 1)`. -/

/-- State of a `GroveLedBar` instance: constructor pin, `_reverse`,
`_clk_data`. -/
structure LedBarState where
  pin : ℕ
  reverse : Bool
  clkData : ℕ
  deriving DecidableEq, Repr

namespace WelcomeLedBar

/-- `_send_clock` of `welcome.py`. -/
def sendClock (b : LedBarState) : LedBarState × List HwEvent :=
  let c := ((b.clkData : ℤ) - 1).natAbs
  ({ b with clkData := c }, [HwEvent.write (b.pin + 1) c])

/-- `_write16` of `welcome.py`: for `i` in `range(15, -1, -1)`, write bit `i`
of `data` to the data pin, then `_send_clock`. -/
def write16 (b : LedBarState) (data : ℕ) : LedBarState × List HwEvent :=
  ((List.range 16).reverse).foldl
    (fun acc i =>
      let s := sendClock acc.1
      (s.1, acc.2 ++ [HwEvent.write acc.1.pin ((data >>> i) &&& 1)] ++ s.2))
    (b, [])

/-- `_latch` of `welcome.py`. -/
def latch (b : LedBarState) : LedBarState × List HwEvent :=
  let s := sendClock b
  (s.1, [HwEvent.write b.pin 0] ++ s.2 ++ [HwEvent.sleep (22 / 100000)] ++
    (List.range 4).foldl (fun evs _ =>
      evs ++ [HwEvent.write b.pin 1, HwEvent.sleep (7 / 100000000),
              HwEvent.write b.pin 0, HwEvent.sleep (23 / 100000000)]) [] ++
    [HwEvent.sleep (2 / 10000000)])

/-- The index sequence of `level`: `range(10) if self._reverse else
range(9, -1, -1)`. -/
def levelIndices (reverse : Bool) : List ℕ :=
  if reverse then List.range 10 else (List.range 10).reverse

/-- `level` of `welcome.py`: `_begin` (a 16-bit zero write), one 16-bit write
of `brightness if value > i else 0` per index, then `_end` (two 16-bit zero
writes and `_latch`). -/
def level (b : LedBarState) (value brightness : ℕ) : LedBarState × List HwEvent :=
  let s1 := write16 b 0
  let s2 := (levelIndices b.reverse).foldl
    (fun acc i =>
      let s := write16 acc.1 (if value > i then brightness else 0)
      (s.1, acc.2 ++ s.2))
    (s1.1, s1.2)
  let s3 := write16 s2.1 0
  let s4 := write16 s3.1 0
  let s5 := latch s4.1
  (s5.1, s2.2 ++ s3.2 ++ s4.2 ++ s5.2)

end WelcomeLedBar

namespace ParkSensorLedBar

/-- `_send_clock` of `L2_Park_Sensor.py`. -/
def sendClock (b : LedBarState) : LedBarState × List HwEvent :=
  let c := ((b.clkData : ℤ) - 1).natAbs
  ({ b with clkData := c }, [HwEvent.write (b.pin + 1) c])

/-- `_write16` of `L2_Park_Sensor.py`. -/
def write16 (b : LedBarState) (data : ℕ) : LedBarState × List HwEvent :=
  ((List.range 16).reverse).foldl
    (fun acc i =>
      let s := sendClock acc.1
      (s.1, acc.2 ++ [HwEvent.write acc.1.pin ((data >>> i) &&& 1)] ++ s.2))
    (b, [])

/-- `_latch` of `L2_Park_Sensor.py`. -/
def latch (b : LedBarState) : LedBarState × List HwEvent :=
  let s := sendClock b
  (s.1, [HwEvent.write b.pin 0] ++ s.2 ++ [HwEvent.sleep (22 / 100000)] ++
    (List.range 4).foldl (fun evs _ =>
      evs ++ [HwEvent.write b.pin 1, HwEvent.sleep (7 / 100000000),
              HwEvent.write b.pin 0, HwEvent.sleep (23 / 100000000)]) [] ++
    [HwEvent.sleep (2 / 10000000)])

/-- The index sequence of `level` in `L2_Park_Sensor.py`. -/
def levelIndices (reverse : Bool) : List ℕ :=
  if reverse then List.range 10 else (List.range 10).reverse

/-- `level` of `L2_Park_Sensor.py`. -/
def level (b : LedBarState) (value brightness : ℕ) : LedBarState × List HwEvent :=
  let s1 := write16 b 0
  let s2 := (levelIndices b.reverse).foldl
    (fun acc i =>
      let s := write16 acc.1 (if value > i then brightness else 0)
      (s.1, acc.2 ++ s.2))
    (s1.1, s1.2)
  let s3 := write16 s2.1 0
  let s4 := write16 s3.1 0
  let s5 := latch s4.1
  (s5.1, s2.2 ++ s3.2 ++ s4.2 ++ s5.2)

end ParkSensorLedBar

namespace SetLedLedBar

/-- `_send_clock` of `L2_SetLED.py`. -/
def sendClock (b : LedBarState) : LedBarState × List HwEvent :=
  let c := ((b.clkData : ℤ) - 1).natAbs
  ({ b with clkData := c }, [HwEvent.write (b.pin + 1) c])

/-- `_write16` of `L2_SetLED.py`. -/
def write16 (b : LedBarState) (data : ℕ) : LedBarState × List HwEvent :=
  ((List.range 16).reverse).foldl
    (fun acc i =>
      let s := sendClock acc.1
      (s.1, acc.2 ++ [HwEvent.write acc.1.pin ((data >>> i) &&& 1)] ++ s.2))
    (b, [])

/-- `_latch` of `L2_SetLED.py`. -/
def latch (b : LedBarState) : LedBarState × List HwEvent :=
  let s := sendClock b
  (s.1, [HwEvent.write b.pin 0] ++ s.2 ++ [HwEvent.sleep (22 / 100000)] ++
    (List.range 4).foldl (fun evs _ =>
      evs ++ [HwEvent.write b.pin 1, HwEvent.sleep (7 / 100000000),
              HwEvent.write b.pin 0, HwEvent.sleep (23 / 100000000)]) [] ++
    [HwEvent.sleep (2 / 10000000)])

/-- The index sequence of `level` in `L2_SetLED.py`. -/
def levelIndices (reverse : Bool) : List ℕ :=
  if reverse then List.range 10 else (List.range 10).reverse

/-- `level` of `L2_SetLED.py`. -/
def level (b : LedBarState) (value brightness : ℕ) : LedBarState × List HwEvent :=
  let s1 := write16 b 0
  let s2 := (levelIndices b.reverse).foldl
    (fun acc i =>
      let s := write16 acc.1 (if value > i then brightness else 0)
      (s.1, acc.2 ++ s.2))
    (s1.1, s1.2)
  let s3 := write16 s2.1 0
  let s4 := write16 s3.1 0
  let s5 := latch s4.1
  (s5.1, s2.2 ++ s3.2 ++ s4.2 ++ s5.2)

end SetLedLedBar

/-- Auxiliary characterization of the averaging loop: starting at counter `m`
with `n - m` accepted readings still needed and at least that many available
in `rs`, the loop stops exactly when the counter reaches `n`, having added
exactly the next `n - m` accepted voltages to the running sum. -/
theorem averagingLoop_reaches (n : ℕ) :
    ∀ (rs : List AdcRead) (m : ℕ) (sum : ℚ), m ≤ n →
      n - m ≤ (acceptedVals rs).length →
      averagingLoop n rs (m, sum) =
        (n, sum + ((acceptedVals rs).take (n - m)).sum) := by
  intro rs
  induction rs with
  | nil =>
    intro m sum hm hlen
    simp only [acceptedVals, List.map_nil, List.filterMap_nil, List.length_nil,
      Nat.le_zero] at hlen
    have hnm : n = m := by omega
    subst hnm
    simp [averagingLoop, hlen]
  | cons r rest ih =>
    intro m sum hm hlen
    by_cases hmn : m < n
    · by_cases htruthy : pyTruthy (readVoltageIrSensor r) = true
      · obtain ⟨v, hv⟩ : ∃ v, readVoltageIrSensor r = some v := by
          cases hr : readVoltageIrSensor r with
          | none => rw [hr] at htruthy; exact absurd htruthy (by simp [pyTruthy])
          | some v => exact ⟨v, rfl⟩
        have hacc : acceptedVals (r :: rest) = v :: acceptedVals rest := by
          simp only [acceptedVals, List.map_cons, List.filterMap_cons, hv]
          rw [hv] at htruthy
          rw [if_pos htruthy]
        have hstep : averagingLoop n (r :: rest) (m, sum) =
            averagingLoop n rest (m + 1, sum + v) := by
          simp only [averagingLoop, if_pos hmn, hv, Option.getD_some]
          rw [hv] at htruthy
          rw [if_pos htruthy]
        rw [hstep, ih (m + 1) (sum + v) (by omega)
          (by rw [hacc] at hlen; simp at hlen ⊢; omega)]
        have hnm1 : n - m = (n - (m + 1)) + 1 := by omega
        rw [hacc, hnm1, List.take_succ_cons, List.sum_cons]
        ring_nf
      · have hacc : acceptedVals (r :: rest) = acceptedVals rest := by
          simp only [acceptedVals, List.map_cons, List.filterMap_cons]
          rw [if_neg (by simpa using htruthy)]
        have hstep : averagingLoop n (r :: rest) (m, sum) =
            averagingLoop n rest (m, sum) := by
          simp only [averagingLoop, if_pos hmn]
          rw [if_neg (by simpa using htruthy)]
        rw [hacc] at hlen
        rw [hstep, hacc]
        exact ih m sum hm hlen
    · have hmn' : m = n := by omega
      subst hmn'
      simp [averagingLoop]

/-- C1: the coil table has 4 four-bit patterns, is indexed modulo 4, and the
direction-1 sequence is the reversal of the direction-0 sequence: the list for
direction 1 equals `(stepSequences 0).reverse`, every emitted pattern is
`table[n % 4]`, the pattern emitted for direction 1 at step `n` is the pattern
at position `n % 4` of the reversed direction-0 table, and the inline loop of
`L4_Stepmotor.py` walks exactly the same two tables. -/
theorem stepper_sequence_reversal :
    (stepSequences 0).length = 4 ∧
    stepSequences 1 = (stepSequences 0).reverse ∧
    (∀ direction n, stepPattern direction n =
      (stepSequences direction).getD (n % 4) (0, 0, 0, 0)) ∧
    (∀ n, stepPattern 1 n = (stepSequences 0).reverse.getD (n % 4) (0, 0, 0, 0)) ∧
    l4LoopPatterns 0 = stepSequences 0 ∧
    l4LoopPatterns 1 = (stepSequences 0).reverse := by
  refine ⟨rfl, rfl, ?_, ?_, rfl, rfl⟩
  · intro direction n
    match direction with
    | 0 => rfl
    | Nat.succ d => rfl
  · intro n
    rfl

/-- C2 counterexample: the claim fails on three motor-driving scripts.  In
`L4_Stepmotor_Measurements.py` the interrupt handler zeroes the coils and
frees the pins but never closes the chip handle (no `gpiochip_close` occurs
in its trace).  In `temp_pwm_test.py`, a `KeyboardInterrupt` in the step loop
of `test_different_frequencies` is not caught by the surrounding
`except Exception` and unwinds through the context manager's `finally`, which
frees the coil pins and closes the chip without a single GPIO write — in
particular without setting `M1` to 0.  In `stepper_motor_timer_test.py` the
handler that catches Ctrl+C during motor operation performs no hardware
event at all: no safe-state write, no free, no close. -/
theorem interrupt_shutdown_counterexample :
    HwEvent.closeChip ∉ l4StepmotorMeasInterruptTrace ∧
    (zeroesPin tempPwmTestInterruptTrace pinM1 = false ∧
     (tempPwmTestInterruptTrace.filter HwEvent.isActuatorWrite) = [] ∧
     HwEvent.free pinM1 ∈ tempPwmTestInterruptTrace ∧
     HwEvent.closeChip ∈ tempPwmTestInterruptTrace) ∧
    timerTestRunInterruptTrace = [] := by
  decide

/-- C2 amended: in the `KeyboardInterrupt` handlers of `L4_Stepmotor.py`,
`test.py`, `L4_DCmotor.py`, `L4_DCmotor_Measurements.py`,
`L5_Regelkreis_zeit.py` and `L5_regelkreis_drehzahl.py`, the GPIO writes
performed after the interrupt set every motor coil/output pin (`M1..M4`, or
`M3`/`M4`, or `M1`/`M2`) to 0 and disable the driver enable pins (or set the
PWM duty cycle to 0) before any pin is freed or the chip handle is closed,
the handle is closed, and no actuator write occurs after the close.  The
three scripts of the counterexample — `L4_Stepmotor_Measurements.py` (handle
never closed), `temp_pwm_test.py` (frees and closes without zeroing the
coils on the uncaught path) and `stepper_motor_timer_test.py` (in-run
handler performs no shutdown or release) — are the exceptions. -/
theorem interrupt_shutdown_handlers_amended :
    (zeroesPin l4StepmotorInterruptTrace pinM1 ∧
     zeroesPin l4StepmotorInterruptTrace pinM2 ∧
     zeroesPin l4StepmotorInterruptTrace pinM3 ∧
     zeroesPin l4StepmotorInterruptTrace pinM4 ∧
     zeroesPin l4StepmotorInterruptTrace pinD1 ∧
     zeroesPin l4StepmotorInterruptTrace pinD2 ∧
     writesBeforeReleases l4StepmotorInterruptTrace ∧
     noWriteAfterClose l4StepmotorInterruptTrace ∧
     HwEvent.closeChip ∈ l4StepmotorInterruptTrace) ∧
    (zeroesPin l4TestInterruptTrace pinM1 ∧
     zeroesPin l4TestInterruptTrace pinM2 ∧
     zeroesPin l4TestInterruptTrace pinM3 ∧
     zeroesPin l4TestInterruptTrace pinM4 ∧
     zeroesPin l4TestInterruptTrace pinD1 ∧
     zeroesPin l4TestInterruptTrace pinD2 ∧
     writesBeforeReleases l4TestInterruptTrace ∧
     noWriteAfterClose l4TestInterruptTrace ∧
     HwEvent.closeChip ∈ l4TestInterruptTrace) ∧
    (zeroesPin l4DCmotorInterruptTrace pinM3 ∧
     zeroesPin l4DCmotorInterruptTrace pinM4 ∧
     HwEvent.pwm pinPWMB dcmotorPwmFrequency 0 ∈ l4DCmotorInterruptTrace ∧
     writesBeforeReleases l4DCmotorInterruptTrace ∧
     noWriteAfterClose l4DCmotorInterruptTrace ∧
     HwEvent.closeChip ∈ l4DCmotorInterruptTrace) ∧
    (zeroesPin l4DCmotorMeasInterruptTrace pinM3 ∧
     zeroesPin l4DCmotorMeasInterruptTrace pinM4 ∧
     HwEvent.pwm pinPWMB dcmotorMeasPwmFrequency 0 ∈ l4DCmotorMeasInterruptTrace ∧
     writesBeforeReleases l4DCmotorMeasInterruptTrace ∧
     noWriteAfterClose l4DCmotorMeasInterruptTrace ∧
     HwEvent.closeChip ∈ l4DCmotorMeasInterruptTrace) ∧
    (zeroesPin zeitInterruptTrace pinM1 ∧
     zeroesPin zeitInterruptTrace pinM2 ∧
     zeroesPin zeitInterruptTrace pinD1 ∧
     writesBeforeReleases zeitInterruptTrace ∧
     noWriteAfterClose zeitInterruptTrace ∧
     HwEvent.closeChip ∈ zeitInterruptTrace) ∧
    (zeroesPin drehzahlInterruptTrace pinM3 ∧
     zeroesPin drehzahlInterruptTrace pinM4 ∧
     HwEvent.pwm pinPWMB drehzahlPwmFrequency 0 ∈ drehzahlInterruptTrace ∧
     writesBeforeReleases drehzahlInterruptTrace ∧
     noWriteAfterClose drehzahlInterruptTrace ∧
     HwEvent.closeChip ∈ drehzahlInterruptTrace) := by
  decide

/-- C5 counterexample: `stepper_optimized_sleep` does not fit the claimed
scheme for any strict threshold: at `secs = 0.0005` — the boundary of its
`secs < 0.0005` spin-only branch — it performs the passive sleep
`time.sleep(0.0005 - 0.0003)`, and no rational threshold `t` makes
"passive sleep exactly when `secs > t`" true of it. -/
theorem stepper_optimized_no_strict_threshold :
    (stepperOptimizedSleep (5 / 10000)).passiveSleeps = [1 / 5000] ∧
    ¬ ∃ t : ℚ, hybridWithThreshold stepperOptimizedSleep t := by
  constructor
  · norm_num [stepperOptimizedSleep]
  · rintro ⟨t, h⟩
    by_cases ht : t < 5 / 10000
    · have hmax : max t (4 / 10000) < 5 / 10000 := max_lt ht (by norm_num)
      set s : ℚ := (max t (4 / 10000) + 5 / 10000) / 2 with hs
      have h1 : max t (4 / 10000) < s := by rw [hs]; linarith
      have h2 : s < 5 / 10000 := by rw [hs]; linarith
      have hpos : (0 : ℚ) < s :=
        lt_of_le_of_lt (by norm_num) (lt_of_le_of_lt (le_max_right t (4 / 10000)) h1)
      have hts : t < s := lt_of_le_of_lt (le_max_left t (4 / 10000)) h1
      obtain ⟨d, hd, -, -, -⟩ := (h s hpos).1 hts
      rw [stepperOptimizedSleep, if_neg (not_le.mpr hpos), if_pos h2] at hd
      exact List.cons_ne_nil d [] hd.symm
    · push_neg at ht
      have h0 : (0 : ℚ) < 5 / 10000 := by norm_num
      have hempty := ((h (5 / 10000) h0).2 ht).1
      rw [stepperOptimizedSleep, if_neg (not_le.mpr h0), if_neg (lt_irrefl _),
        if_pos (by norm_num : (5 : ℚ) / 10000 < 2 / 1000)] at hempty
      simp at hempty

/-- C5 amended: each busy-sleep variant performs at most one passive sleep,
whose duration is strictly positive and strictly less than `secs`, followed by
a spin-wait.  `busy_sleep` passively sleeps `secs - 0.0002` exactly when
`secs > 0.0004` and fits the strict-threshold scheme with threshold `0.0004`;
`perf_counter_busy_sleep` fits it with threshold `0.001`;
`stepper_optimized_sleep` sleeps passively exactly when `secs ≥ 0.0005`, its
boundary value `0.0005` lying on the passive-sleep side, so its no-sleep
region is `secs < 0.0005` rather than "at or below" a strict threshold. -/
theorem sleep_variants_hybrid :
    (∀ secs : ℚ, (busySleep secs).passiveSleeps =
      if 4 / 10000 < secs then [secs - 2 / 10000] else []) ∧
    hybridWithThreshold busySleep (4 / 10000) ∧
    hybridWithThreshold perfCounterBusySleep (1 / 1000) ∧
    (∀ secs : ℚ, 0 < secs →
      (5 / 10000 ≤ secs → ∃ d, (stepperOptimizedSleep secs).passiveSleeps = [d] ∧
        0 < d ∧ d < secs ∧ (stepperOptimizedSleep secs).spinWait = true) ∧
      (secs < 5 / 10000 → (stepperOptimizedSleep secs).passiveSleeps = [] ∧
        (stepperOptimizedSleep secs).spinWait = true)) := by
  refine ⟨fun secs => rfl, ?_, ?_, ?_⟩
  · intro secs hpos
    constructor
    · intro ht
      exact ⟨secs - 2 / 10000, by simp [busySleep, if_pos ht], by linarith, by linarith, rfl⟩
    · intro ht
      exact ⟨by simp [busySleep, if_neg (not_lt.mpr ht)], rfl⟩
  · intro secs hpos
    have hn : ¬ secs ≤ 0 := not_le.mpr hpos
    constructor
    · intro ht
      refine ⟨secs - 5 / 10000, ?_, by linarith, by linarith, ?_⟩ <;>
        · rw [perfCounterBusySleep, if_neg hn, if_pos ht]
    · intro ht
      have ht' : ¬ 1 / 1000 < secs := not_lt.mpr ht
      constructor <;> · rw [perfCounterBusySleep, if_neg hn, if_neg ht']
  · intro secs hpos
    have hn : ¬ secs ≤ 0 := not_le.mpr hpos
    constructor
    · intro ht
      have h1 : ¬ secs < 5 / 10000 := not_lt.mpr ht
      by_cases h2 : secs < 2 / 1000
      · refine ⟨secs - 3 / 10000, ?_, by linarith, by linarith, ?_⟩ <;>
          · rw [stepperOptimizedSleep, if_neg hn, if_neg h1, if_pos h2]
      · by_cases h3 : secs < 1 / 100
        · refine ⟨secs - 5 / 10000, ?_, by linarith, by linarith, ?_⟩ <;>
            · rw [stepperOptimizedSleep, if_neg hn, if_neg h1, if_neg h2, if_pos h3]
        · have h4 : (1 : ℚ) / 100 ≤ secs := not_lt.mp h3
          refine ⟨secs - 1 / 1000, ?_, by linarith, by linarith, ?_⟩ <;>
            · rw [stepperOptimizedSleep, if_neg hn, if_neg h1, if_neg h2, if_neg h3]
    · intro ht
      constructor <;> · rw [stepperOptimizedSleep, if_neg hn, if_pos ht]

/-- C5 witness: the amended statement applied at the concrete durations
`secs = 0.0008` (the `STEP_TIME` of `L4_Stepmotor.py`) and `secs = 0.003`. -/
theorem sleep_variants_hybrid_witness :
    ((0 : ℚ) < 8 / 10000 ∧ (4 : ℚ) / 10000 < 8 / 10000 ∧
      ∃ d, (busySleep (8 / 10000)).passiveSleeps = [d] ∧ 0 < d ∧ d < 8 / 10000 ∧
        (busySleep (8 / 10000)).spinWait = true) ∧
    ((0 : ℚ) < 3 / 1000 ∧ (5 : ℚ) / 10000 ≤ 3 / 1000 ∧
      ∃ d, (stepperOptimizedSleep (3 / 1000)).passiveSleeps = [d] ∧ 0 < d ∧
        d < 3 / 1000 ∧ (stepperOptimizedSleep (3 / 1000)).spinWait = true) :=
  ⟨⟨by norm_num, by norm_num,
      (sleep_variants_hybrid.2.1 (8 / 10000) (by norm_num)).1 (by norm_num)⟩,
   ⟨by norm_num, by norm_num,
      (sleep_variants_hybrid.2.2.2 (3 / 1000) (by norm_num)).1 (by norm_num)⟩⟩

/-- C6: the duty cycle handed to `lgpio.tx_pwm` equals
`int(round(abs(delta_distance * k) + OFFSET_DUTYCYCLE))` clamped into
`[0, 100]`, so it always lies between 0 and 100 inclusive, and the
drivetime-control loop's `abs(delta_distance * k)` is always non-negative. -/
theorem pwm_dutycycle_clamped :
    (∀ deltaDistance : ℚ,
      emittedDutycycle deltaDistance =
        max 0 (min 100 (pyRound (|deltaDistance * drehzahlK| + offsetDutycycle))) ∧
      0 ≤ emittedDutycycle deltaDistance ∧ emittedDutycycle deltaDistance ≤ 100) ∧
    (∀ deltaDistance : ℚ, 0 ≤ drivetime deltaDistance) := by
  constructor
  · intro deltaDistance
    have h : ∀ d : ℤ, clampDutycycle d = max 0 (min 100 d) ∧
        0 ≤ clampDutycycle d ∧ clampDutycycle d ≤ 100 := by
      intro d
      simp only [clampDutycycle]
      omega
    exact h (pwmDutycycleRaw deltaDistance)
  · intro deltaDistance
    exact abs_nonneg _

/-- C9: `read_angle_potentiometer` divides by `sensitivity` with no guard, so
it only returns an angle when `sensitivity ≠ 0`; `calibrate_potentiometer`
does not guarantee this: whenever the two calibration voltage readings are
equal (in particular for any equal pair of raw ADC values) the returned
sensitivity is exactly 0, after which every angle read raises a
division-by-zero error. -/
theorem calibration_zero_sensitivity_hazard :
    (∀ voltage offset sensitivity : ℚ, sensitivity ≠ 0 →
      readAnglePotentiometer voltage offset sensitivity =
        some (pyRound2 ((offset - voltage) / sensitivity))) ∧
    (∀ voltage offset : ℚ, readAnglePotentiometer voltage offset 0 = none) ∧
    (∀ (v zeroVoltage : ℚ) (minCalAngle maxCalAngle : ℤ),
      (calibratePotentiometer v v zeroVoltage minCalAngle maxCalAngle).1 = 0) ∧
    (∀ (raw : ℕ) (zeroVoltage : ℚ) (minCalAngle maxCalAngle : ℤ)
      (voltage offset : ℚ),
      readAnglePotentiometer voltage offset
        (calibratePotentiometer (readVoltagePotentiometer raw)
          (readVoltagePotentiometer raw) zeroVoltage minCalAngle maxCalAngle).1 =
        none) := by
  refine ⟨?_, ?_, ?_, ?_⟩
  · intro voltage offset sensitivity hs
    simp [readAnglePotentiometer, hs]
  · intro voltage offset
    simp [readAnglePotentiometer]
  · intro v zeroVoltage minCalAngle maxCalAngle
    simp [calibratePotentiometer]
  · intro raw zeroVoltage minCalAngle maxCalAngle voltage offset
    simp [calibratePotentiometer, readAnglePotentiometer]

/-- C9 witness: the calibration performed by the `__main__` of
`L1_Hysteresis.py` (`calibrate_potentiometer(POT_PIN, -90, 90)`) with the two
calibration readings both equal to raw ADC value 2048 yields sensitivity 0,
and the subsequent angle read fails; the nonzero-sensitivity branch applied at
sensitivity 1 returns a value. -/
theorem calibration_zero_sensitivity_hazard_witness :
    readAnglePotentiometer 1 2
      (calibratePotentiometer (readVoltagePotentiometer 2048)
        (readVoltagePotentiometer 2048) 1 (-90) 90).1 = none ∧
    ((1 : ℚ) ≠ 0 ∧ readAnglePotentiometer 1 2 1 = some (pyRound2 ((2 - 1) / 1))) :=
  ⟨calibration_zero_sensitivity_hazard.2.2.2 2048 1 (-90) 90 1 2,
   by norm_num, calibration_zero_sensitivity_hazard.1 1 2 1 (by norm_num)⟩

/-- C4: an analog read that raises `IOError` makes `read_voltage_ir_sensor`
return `False` instead of a voltage; such an attempt does not advance the
averaging loop's counter or sum; a read that does not raise returns
`sensor_value * ADC_REF / ADC_RES`; and with at least `N_MEASUREMENTS`
accepted readings available the loop terminates exactly when the counter
reaches `N_MEASUREMENTS`, the reported average being the sum of the accepted
readings divided by `N_MEASUREMENTS`. -/
theorem adc_ioerror_skipped_and_average :
    readVoltageIrSensor AdcRead.ioErr = none ∧
    (∀ v : ℕ, readVoltageIrSensor (AdcRead.ok v) = some ((v : ℚ) * 5 / 1023)) ∧
    (∀ (n m : ℕ) (sum : ℚ) (rs : List AdcRead), m < n →
      averagingLoop n (AdcRead.ioErr :: rs) (m, sum) = averagingLoop n rs (m, sum)) ∧
    (∀ (n : ℕ) (rs : List AdcRead), n ≤ (acceptedVals rs).length →
      averagingLoop n rs (0, 0) = (n, ((acceptedVals rs).take n).sum) ∧
      averageVoltage n rs = ((acceptedVals rs).take n).sum / (n : ℚ)) := by
  refine ⟨rfl, fun v => rfl, ?_, ?_⟩
  · intro n m sum rs hmn
    simp [averagingLoop, if_pos hmn, readVoltageIrSensor, pyTruthy]
  · intro n rs hlen
    have h := averagingLoop_reaches n rs 0 0 (Nat.zero_le n) (by simpa using hlen)
    simp only [Nat.sub_zero, zero_add] at h
    exact ⟨h, by rw [averageVoltage, h]⟩

/-- C4 witness: the averaging characterization applied with
`N_MEASUREMENTS = 2` to the concrete read outcomes
`[IOError, 1023, 0, 2046]`: the error and the zero reading are skipped, the
loop stops at counter 2 with sum `5 + 10`, and the average is `15 / 2`. -/
theorem adc_ioerror_skipped_and_average_witness :
    ((1 : ℕ) < 2 ∧
      averagingLoop 2 (AdcRead.ioErr :: [AdcRead.ok 1023]) (1, 5) =
        averagingLoop 2 [AdcRead.ok 1023] (1, 5)) ∧
    (2 ≤ (acceptedVals [AdcRead.ioErr, AdcRead.ok 1023, AdcRead.ok 0,
        AdcRead.ok 2046]).length ∧
      averagingLoop 2 [AdcRead.ioErr, AdcRead.ok 1023, AdcRead.ok 0,
          AdcRead.ok 2046] (0, 0) =
        (2, ((acceptedVals [AdcRead.ioErr, AdcRead.ok 1023, AdcRead.ok 0,
          AdcRead.ok 2046]).take 2).sum) ∧
      averageVoltage 2 [AdcRead.ioErr, AdcRead.ok 1023, AdcRead.ok 0,
          AdcRead.ok 2046] =
        ((acceptedVals [AdcRead.ioErr, AdcRead.ok 1023, AdcRead.ok 0,
          AdcRead.ok 2046]).take 2).sum / (2 : ℚ)) := by
  have hacc : acceptedVals
      [AdcRead.ioErr, AdcRead.ok 1023, AdcRead.ok 0, AdcRead.ok 2046] = [5, 10] := by
    norm_num [acceptedVals, readVoltageIrSensor, pyTruthy, zeitAdcRef, zeitAdcRes,
      List.filterMap_cons, bne_iff_ne]
  have hlen : 2 ≤ (acceptedVals
      [AdcRead.ioErr, AdcRead.ok 1023, AdcRead.ok 0, AdcRead.ok 2046]).length := by
    rw [hacc]; norm_num
  exact ⟨⟨by norm_num,
      adc_ioerror_skipped_and_average.2.2.1 2 1 5 [AdcRead.ok 1023] (by norm_num)⟩,
    hlen,
    (adc_ioerror_skipped_and_average.2.2.2 2
      [AdcRead.ioErr, AdcRead.ok 1023, AdcRead.ok 0, AdcRead.ok 2046] hlen).1,
    (adc_ioerror_skipped_and_average.2.2.2 2
      [AdcRead.ioErr, AdcRead.ok 1023, AdcRead.ok 0, AdcRead.ok 2046] hlen).2⟩

/-- C10: a successful reading of raw value 0 yields voltage `0.0`, which is
falsy, so the averaging loop discards it exactly like an I/O failure: it never
contributes to the sum and never increments the counter, and on a stream
consisting only of zero readings the loop state stays `(0, 0)`, so the
while-guard `measurement < N_MEASUREMENTS` keeps holding and the loop never
terminates. -/
theorem zero_reading_discarded_like_error :
    readVoltageIrSensor (AdcRead.ok 0) = some 0 ∧
    pyTruthy (readVoltageIrSensor (AdcRead.ok 0)) = false ∧
    (∀ (n : ℕ) (s : ℕ × ℚ) (rs : List AdcRead),
      averagingLoop n (AdcRead.ok 0 :: rs) s =
        averagingLoop n (AdcRead.ioErr :: rs) s) ∧
    (∀ (n : ℕ) (rs : List AdcRead), (∀ r ∈ rs, r = AdcRead.ok 0) →
      averagingLoop n rs (0, 0) = (0, 0)) ∧
    (∀ (n : ℕ) (rs : List AdcRead), 0 < n → (∀ r ∈ rs, r = AdcRead.ok 0) →
      (averagingLoop n rs (0, 0)).1 < n) := by
  have hv0 : readVoltageIrSensor (AdcRead.ok 0) = some 0 := by
    simp [readVoltageIrSensor]
  have h0 : pyTruthy (readVoltageIrSensor (AdcRead.ok 0)) = false := by
    rw [hv0]; simp [pyTruthy]
  have hzero : ∀ (n : ℕ) (rs : List AdcRead), (∀ r ∈ rs, r = AdcRead.ok 0) →
      averagingLoop n rs (0, 0) = (0, 0) := by
    intro n rs hall
    induction rs with
    | nil => rfl
    | cons r rest ih =>
      have hr : r = AdcRead.ok 0 := hall r (List.mem_cons_self r rest)
      subst hr
      have hrest : ∀ r ∈ rest, r = AdcRead.ok 0 :=
        fun r hr => hall r (List.mem_cons_of_mem _ hr)
      by_cases hn : 0 < n
      · simp only [averagingLoop, if_pos hn, h0]
        simpa using ih hrest
      · simp [averagingLoop, hn]
  refine ⟨hv0, h0, ?_, hzero, ?_⟩
  · rintro n ⟨m, sum⟩ rs
    by_cases hmn : m < n
    · simp only [averagingLoop, if_pos hmn, h0]
      simp [readVoltageIrSensor, pyTruthy]
    · simp [averagingLoop, hmn]
  · intro n rs hn hall
    rw [hzero n rs hall]
    exact hn

/-- C10 witness: with `N_MEASUREMENTS = 10` (the value in the scripts) and
three consecutive zero readings, the loop state is still `(0, 0)` and the
while-guard still holds. -/
theorem zero_reading_discarded_like_error_witness :
    (∀ r ∈ [AdcRead.ok 0, AdcRead.ok 0, AdcRead.ok 0], r = AdcRead.ok 0) ∧
    averagingLoop 10 [AdcRead.ok 0, AdcRead.ok 0, AdcRead.ok 0] (0, 0) = (0, 0) ∧
    (averagingLoop 10 [AdcRead.ok 0, AdcRead.ok 0, AdcRead.ok 0] (0, 0)).1 < 10 :=
  ⟨by decide,
   zero_reading_discarded_like_error.2.2.2.1 10
     [AdcRead.ok 0, AdcRead.ok 0, AdcRead.ok 0] (by decide),
   zero_reading_discarded_like_error.2.2.2.2 10
     [AdcRead.ok 0, AdcRead.ok 0, AdcRead.ok 0] (by norm_num) (by decide)⟩

/-- Folding row-appends over a list of iterations just appends the mapped
rows to the accumulated file. -/
theorem foldl_addRowToCsv {α : Type} (g : α → String) (iters : List α)
    (acc : List (List String)) :
    iters.foldl (fun file it => addRowToCsv file (g it) ";") acc =
      acc ++ iters.map fun it => (g it).splitOn ";" := by
  induction iters generalizing acc with
  | nil => simp
  | cons it rest ih =>
    rw [List.foldl_cons, ih, List.map_cons]
    simp [addRowToCsv]

/-- C7: every `add_row_to_csv` call appends exactly one row — the split of
`row_data` on the delimiter — leaving the previously written rows an
unchanged prefix; the parameter/header rows of `L5_Regelkreis_zeit.py` and
the header row of `L5_IR_kalibrieren.py` are written exactly once, before the
measurement loop, which contributes only data rows. -/
theorem csv_append_only_header_once :
    (∀ (file : List (List String)) (rowData delimiter : String),
      addRowToCsv file rowData delimiter = file ++ [rowData.splitOn delimiter]) ∧
    (∀ (file : List (List String)) (rowData delimiter : String),
      file <+: addRowToCsv file rowData delimiter) ∧
    (∀ (setDistance : ℤ) (iters : List (String × String × String)),
      zeitCsvAfter setDistance iters =
        [(zeitParamRow setDistance).splitOn ";", zeitHeaderRow.splitOn ";"] ++
          iters.map fun it => (zeitDataRow it.1 it.2.1 it.2.2).splitOn ";") ∧
    (∀ iters : List (String × String),
      kalibrierenCsvAfter iters =
        [kalibrierenHeaderRow.splitOn ";"] ++
          iters.map fun it => (kalibrierenDataRow it.1 it.2).splitOn ";") := by
  refine ⟨fun file rowData delimiter => rfl, ?_, ?_, ?_⟩
  · intro file rowData delimiter
    exact ⟨[rowData.splitOn delimiter], rfl⟩
  · intro setDistance iters
    exact foldl_addRowToCsv
      (fun it : String × String × String => zeitDataRow it.1 it.2.1 it.2.2) iters
      (addRowToCsv (addRowToCsv [] (zeitParamRow setDistance) ";") zeitHeaderRow ";")
  · intro iters
    exact foldl_addRowToCsv
      (fun it : String × String => kalibrierenDataRow it.1 it.2) iters
      (addRowToCsv [] kalibrierenHeaderRow ";")

/-- C3 counterexample: with `Wegdiagramm_Zeit.csv` already existing,
`create_csv_file` of `L5_Regelkreis_zeit.py` does not report failure — it
returns the fresh name `Wegdiagramm_Zeit_1.csv`, the script does not exit
before its measurement loop, and a new file (not among the existing ones) is
created. -/
theorem create_csv_exists_counterexample :
    createCsvFileZeit [zeitCsvFilename] zeitCsvFilename =
      some "Wegdiagramm_Zeit_1.csv" ∧
    zeitExitsBeforeLoop [zeitCsvFilename] = false ∧
    "Wegdiagramm_Zeit_1.csv" ∉ [zeitCsvFilename] := by
  refine ⟨by decide, by decide, by decide⟩

/-- C3 amended: only `L5_IR_kalibrieren.py` exits when its CSV file already
exists: its `create_csv_file` reports failure exactly when the configured
name exists, and the script reaches its measurement loops exactly when it
does not.  The Regelkreis scripts instead derive a fresh `_N`-suffixed name —
whatever name their `create_csv_file` successfully returns is never an
already-existing file — and continue; concretely, with `Wegdiagramm_Zeit.csv`
existing they create `Wegdiagramm_Zeit_1.csv`. -/
theorem create_csv_behavior :
    (∀ existing : List String,
      (createCsvFileKalibrieren existing kalibrierenCsvFilename = false ↔
        kalibrierenCsvFilename ∈ existing) ∧
      (kalibrierenReachesLoop existing = false ↔
        kalibrierenCsvFilename ∈ existing)) ∧
    (∀ (existing : List String) (filename out : String),
      createCsvFileZeit existing filename = some out → out ∉ existing) ∧
    createCsvFileZeit [zeitCsvFilename] zeitCsvFilename =
      some "Wegdiagramm_Zeit_1.csv" := by
  refine ⟨?_, ?_, by decide⟩
  · intro existing
    constructor <;>
      simp [createCsvFileKalibrieren, kalibrierenReachesLoop, List.contains,
        List.elem_iff]
  · intro existing filename out h hmem
    rw [createCsvFileZeit] at h
    by_cases hc : existing.contains filename = true
    · rw [if_pos hc] at h
      by_cases hn : existing.contains (zeitNextName existing filename) = true
      · rw [if_pos hn] at h
        exact Option.noConfusion h
      · rw [if_neg hn] at h
        cases Option.some.inj h
        exact hn (List.elem_eq_true_of_mem hmem)
    · rw [if_neg hc] at h
      cases Option.some.inj h
      exact hc (List.elem_eq_true_of_mem hmem)

/-- C3 witness: the freshness property applied at the concrete listing
containing only `Wegdiagramm_Zeit.csv`. -/
theorem create_csv_behavior_witness :
    createCsvFileZeit ["Wegdiagramm_Zeit.csv"] "Wegdiagramm_Zeit.csv" =
      some "Wegdiagramm_Zeit_1.csv" ∧
    "Wegdiagramm_Zeit_1.csv" ∉ ["Wegdiagramm_Zeit.csv"] :=
  ⟨by decide,
   create_csv_behavior.2.1 ["Wegdiagramm_Zeit.csv"] "Wegdiagramm_Zeit.csv"
     "Wegdiagramm_Zeit_1.csv" (by decide)⟩

/-- C8: the three `GroveLedBar` class definitions are extensionally equal:
for every pin, reverse flag, clock-toggle state, level value and brightness,
the three `level` methods leave the driver in the same state and emit the
identical sequence of data/clock pin writes. -/
theorem groveledbar_copies_extensionally_equal :
    (∀ (pin : ℕ) (reverse : Bool) (clkData value brightness : ℕ),
      WelcomeLedBar.level ⟨pin, reverse, clkData⟩ value brightness =
        ParkSensorLedBar.level ⟨pin, reverse, clkData⟩ value brightness) ∧
    (∀ (pin : ℕ) (reverse : Bool) (clkData value brightness : ℕ),
      WelcomeLedBar.level ⟨pin, reverse, clkData⟩ value brightness =
        SetLedLedBar.level ⟨pin, reverse, clkData⟩ value brightness) :=
  ⟨fun _ _ _ _ _ => rfl, fun _ _ _ _ _ => rfl⟩

end MechEinf
